import Mathlib

/-!
Verification of the `shaum` Islamic fasting rules engine.

Shallow embedding of the core of the repository:
* `src/calendar.rs` — Gregorian→Hijri conversion with bounds check and the
  single-slot memoization cache (`to_hijri`, `HIJRI_CACHE`);
* `src/rules.rs` — the priority-ordered rule pipeline `analyze` and the
  infallible helper `check`;
* `src/lib.rs` — the `DaudIterator` alternate-day schedule generator;
* `src/astronomy/prayer.rs` — the 20-iteration bisection search
  `find_sun_altitude_time`.

Dates are modelled as integer day numbers (days since 1970-01-01), timestamps
as integer seconds since the Unix epoch, exactly the information content of
`chrono::NaiveDate` / `chrono::DateTime<Utc>`.  The Gregorian calendar
functions of the `chrono` dependency (`Datelike::year`, `Datelike::weekday`,
`NaiveDate::succ_opt`) are implemented by the standard civil-calendar
arithmetic on day numbers.  The external `hijri_date` crate (the table-driven
converter `HijriDate::from_gr` / `from_hijri`) is not part of this repository;
it is taken as an explicit function parameter `fromGr` / `fromHijri`
throughout, so every theorem quantifies over the converter.
-/

namespace Shaum

/-- Floor division on integers (Rust uses this via `chrono`'s calendar math;
all interior divisions below act on non-negative values where floor and
truncated division agree). -/
def fdiv (a b : Int) : Int := Int.fdiv a b

/-- Civil year of a day number (days since 1970-01-01), the function computed
by `chrono::Datelike::year` on `NaiveDate`; standard civil-from-days
arithmetic. -/
def yearOfDays (z : Int) : Int :=
  let z2 := z + 719468
  let era := fdiv z2 146097
  let doe := z2 - era * 146097
  let yoe := fdiv (doe - fdiv doe 1460 + fdiv doe 36524 - fdiv doe 146096) 365
  let y := yoe + era * 400
  let doy := doe - (365 * yoe + fdiv yoe 4 - fdiv yoe 100)
  let mp := fdiv (5 * doy + 2) 153
  if 10 ≤ mp then y + 1 else y

/-- Day number (days since 1970-01-01) of a civil date, the inverse used to
name concrete dates in witnesses; standard days-from-civil arithmetic. -/
def daysFromCivil (y : Int) (m d : Nat) : Int :=
  let y2 := if m ≤ 2 then y - 1 else y
  let era := fdiv y2 400
  let yoe := y2 - era * 400
  let mp : Int := if 2 < m then (m : Int) - 3 else (m : Int) + 9
  let doy := fdiv (153 * mp + 2) 5 + (d : Int) - 1
  let doe := yoe * 365 + fdiv yoe 4 - fdiv yoe 100 + doy
  era * 146097 + doe - 719468

/-- Day of week, as `chrono::Weekday`. -/
inductive Weekday where
  | mon | tue | wed | thu | fri | sat | sun
  deriving DecidableEq, Repr

/-- Weekday of a day number; 1970-01-01 was a Thursday
(`chrono::Datelike::weekday`). -/
def weekdayOfDays (z : Int) : Weekday :=
  match ((z + 3).emod 7).toNat with
  | 0 => .mon
  | 1 => .tue
  | 2 => .wed
  | 3 => .thu
  | 4 => .fri
  | 5 => .sat
  | _ => .sun

/-- Model of `src/types.rs` `FastingStatus`: six-value enum, ascending severity in
declaration order (the derived `Ord` the engine compares with). -/
inductive FastingStatus where
  | Mubah | Makruh | Sunnah | SunnahMuakkadah | Wajib | Haram
  deriving DecidableEq, Repr

/-- Explicit rank table realising the derived declaration-order `Ord` of
`FastingStatus`. -/
def FastingStatus.rank : FastingStatus → Nat
  | .Mubah => 0
  | .Makruh => 1
  | .Sunnah => 2
  | .SunnahMuakkadah => 3
  | .Wajib => 4
  | .Haram => 5

/-- Comparison `a < b` on `FastingStatus` (derived `PartialOrd` in the source). -/
def FastingStatus.blt (a b : FastingStatus) : Bool := a.rank < b.rank

/-- Predicate `FastingStatus::is_haram`. -/
def FastingStatus.is_haram : FastingStatus → Bool
  | .Haram => true
  | _ => false

/-- Predicate `FastingStatus::is_wajib`. -/
def FastingStatus.is_wajib : FastingStatus → Bool
  | .Wajib => true
  | _ => false

/-- Model of `src/types.rs` `FastingType`: a string wrapper (`Cow<'static, str>`),
modelled as the wrapped string. -/
abbrev FastingType := String

/-- Constant `FastingType::EID_AL_FITR` and the other named constants. -/
def EID_AL_FITR : FastingType := "EidAlFitr"

def EID_AL_ADHA : FastingType := "EidAlAdha"

def TASHRIQ : FastingType := "Tashriq"

def RAMADHAN : FastingType := "Ramadhan"

def ARAFAH : FastingType := "Arafah"

def ASHURA : FastingType := "Ashura"

def TASUA : FastingType := "Tasua"

def AYYAMUL_BIDH : FastingType := "AyyamulBidh"

def MONDAY : FastingType := "Monday"

def THURSDAY : FastingType := "Thursday"

def SHAWWAL : FastingType := "Shawwal"

def FRIDAY_EXCLUSIVE : FastingType := "FridayExclusive"

def SATURDAY_EXCLUSIVE : FastingType := "SaturdayExclusive"

/-- Model of `src/types.rs` `TraceCode`. -/
inductive TraceCode where
  | EidAlFitr | EidAlAdha | Tashriq | FridaySingledOut | SaturdaySingledOut
  | Ramadhan | Arafah | Tasua | Ashura | AyyamulBidh | Monday | Thursday
  | Shawwal | Daud | Custom | Debug
  deriving DecidableEq, Repr

/-- Model of `src/types.rs` `RuleTrace`. -/
structure RuleTrace where
  code : TraceCode
  details : Option String
  deriving DecidableEq, Repr

/-- Model of `src/types.rs` `Madhab`. -/
inductive Madhab where
  | Shafi | Hanafi | Maliki | Hanbali
  deriving DecidableEq, Repr

/-- Model of `src/types.rs` `DaudStrategy`. -/
inductive DaudStrategy where
  | Skip | Postpone
  deriving DecidableEq, Repr

/-- A custom rule (`CustomFastingRule::evaluate`): given the effective
Gregorian date and the hijri (year, month, day), optionally a
(status, type) pair. -/
abbrev CustomRule := Int → Nat → Nat → Nat → Option (FastingStatus × FastingType)

/-- Model of `src/rules.rs` `RuleContext`. -/
structure RuleContext where
  adjustment : Int
  madhab : Madhab
  daud_strategy : DaudStrategy
  strict : Bool
  custom_rules : List CustomRule

/-- Default `RuleContext::default()`. -/
def RuleContext.default : RuleContext :=
  { adjustment := 0, madhab := .Shafi, daud_strategy := .Skip,
    strict := false, custom_rules := [] }

/-- Model of `src/types.rs` `FastingAnalysis`: the immutable evaluation result. -/
structure FastingAnalysis where
  date : Int
  primary_status : FastingStatus
  hijri_year : Nat
  hijri_month : Nat
  hijri_day : Nat
  reasons : List FastingType
  traces : List RuleTrace

/-- Model of `src/calendar.rs` `ShaumError` (the variants the core can produce). -/
inductive ShaumError where
  | DateOutOfRange (date min max : Int)
  | InvalidConfiguration (reason : String)
  | AnalysisError (msg : String)
  | HijriConversionError (msg : String)
  | SunsetCalculationError (msg : String)
  | MoonProviderError (msg : String)
  deriving DecidableEq, Repr

/-- Constant `src/calendar.rs` `HIJRI_MIN_YEAR`. -/
def HIJRI_MIN_YEAR : Int := 1938

/-- Constant `src/calendar.rs` `HIJRI_MAX_YEAR`. -/
def HIJRI_MAX_YEAR : Int := 2076

/-- Constructor `ShaumError::date_out_of_range`: the error with the standard bounds
(Jan 1 1938 and Dec 31 2076 as day numbers). -/
def dateOutOfRangeErr (d : Int) : ShaumError :=
  .DateOutOfRange d (daysFromCivil 1938 1 1) (daysFromCivil 2076 12 31)

/-- The external converter `hijri_date::HijriDate::from_gr`, as a function of
the (adjusted) Gregorian day number; fallible.  A `HijriDate` is observably
its (year, month, day) triple. -/
abbrev FromGr := Int → Except String (Nat × Nat × Nat)

/-- The external reconstructor `hijri_date::HijriDate::from_hijri`. -/
abbrev FromHijri := Nat → Nat → Nat → Except String (Nat × Nat × Nat)

/-- Model of `src/calendar.rs` `to_hijri`, cache-free path: bounds check on the
adjusted date's year, then the external conversion. -/
def to_hijri (fromGr : FromGr) (date adjustment : Int) :
    Except ShaumError (Nat × Nat × Nat) :=
  let adjusted := date + adjustment
  let year := yearOfDays adjusted
  if year < HIJRI_MIN_YEAR ∨ HIJRI_MAX_YEAR < year then
    .error (dateOutOfRangeErr adjusted)
  else
    match fromGr adjusted with
    | .error e => .error (.HijriConversionError e)
    | .ok h => .ok h

/-- The single-slot thread-local memo `HIJRI_CACHE`:
`(gregorian, adjustment, hijri_year, hijri_month, hijri_day)`. -/
abbrev HijriCache := Option (Int × Int × Nat × Nat × Nat)

/-- The cache probe at the top of `to_hijri` (`cache.borrow().as_ref().and_then …`). -/
def cacheLookup (cache : HijriCache) (date adjustment : Int) :
    Option (Nat × Nat × Nat) :=
  match cache with
  | some (d, adj, y, m, day) =>
      if d = date ∧ adj = adjustment then some (y, m, day) else none
  | none => none

/-- Model of `src/calendar.rs` `to_hijri` with the memo slot made explicit: returns the
result together with the new cache state.  On a hit the stored triple is
rebuilt through `HijriDate::from_hijri`; on a miss the direct path runs and a
successful conversion is stored. -/
def to_hijriCached (fromGr : FromGr) (fromHijri : FromHijri)
    (cache : HijriCache) (date adjustment : Int) :
    Except ShaumError (Nat × Nat × Nat) × HijriCache :=
  match cacheLookup cache date adjustment with
  | some (y, m, d) =>
      ((match fromHijri y m d with
        | .error e => .error (.HijriConversionError e)
        | .ok h => .ok h), cache)
  | none =>
      let adjusted := date + adjustment
      let year := yearOfDays adjusted
      if year < HIJRI_MIN_YEAR ∨ HIJRI_MAX_YEAR < year then
        (.error (dateOutOfRangeErr adjusted), cache)
      else
        match fromGr adjusted with
        | .error e => (.error (.HijriConversionError e), cache)
        | .ok h => (.ok h, some (date, adjustment, h.1, h.2.1, h.2.2))

/-!
Month/day constants.  Modelled from the spec: `src/constants.rs` (the module
`crate::constants` imported by `src/rules.rs`) is not among the provided
sources; the numeric values are fixed by spec §4.3 ("Shawwal day 1",
"Dhul-Hijjah day 10", "Hijri month 9 (Ramadhan)", "Dhul-Hijjah day 9
(Arafah)", "Muharram day 10 (Ashura)", "Muharram day 9 (Tasu'a)") and by the
month-name table in `src/calendar.rs` (1 = Muharram, 9 = Ramadhan,
10 = Shawwal, 12 = Dhu al-Hijjah).
-/

/-- Modelled from the spec: `constants::MONTH_MUHARRAM` (month 1). -/
def MONTH_MUHARRAM : Nat := 1

/-- Modelled from the spec: `constants::MONTH_RAMADHAN` (month 9). -/
def MONTH_RAMADHAN : Nat := 9

/-- Modelled from the spec: `constants::MONTH_SHAWWAL` (month 10). -/
def MONTH_SHAWWAL : Nat := 10

/-- Modelled from the spec: `constants::MONTH_DHUL_HIJJAH` (month 12). -/
def MONTH_DHUL_HIJJAH : Nat := 12

/-- Modelled from the spec: `constants::DAY_ARAFAH` (day 9). -/
def DAY_ARAFAH : Nat := 9

/-- Modelled from the spec: `constants::DAY_ASHURA` (day 10). -/
def DAY_ASHURA : Nat := 10

/-- Modelled from the spec: `constants::DAY_TASUA` (day 9). -/
def DAY_TASUA : Nat := 9

/-- The running mutable state of one `analyze` evaluation:
(`status`, `types`, `traces`). -/
abbrev EvalState := FastingStatus × List FastingType × List RuleTrace

/-- Model of `src/rules.rs` `analyze`, lines 269-274 (Wajib stage). -/
def wajibStage (h_month : Nat) (s : EvalState) : EvalState :=
  if h_month = MONTH_RAMADHAN then
    (.Wajib, s.2.1 ++ [RAMADHAN], s.2.2 ++ [⟨.Ramadhan, none⟩])
  else s

/-- The guarded raise `if !status.is_wajib() && status < Sunnah { Sunnah }`
shared by the Ayyamul-Bidh, Monday/Thursday and Shawwal blocks. -/
def raiseToSunnah (st : FastingStatus) : FastingStatus :=
  if ¬ st.is_wajib ∧ st.blt .Sunnah then .Sunnah else st

/-- Model of `src/rules.rs` `analyze`, lines 277-281 (Arafah block). -/
def arafahCheck (h_month h_day : Nat) (s : EvalState) : EvalState :=
  if h_month = MONTH_DHUL_HIJJAH ∧ h_day = DAY_ARAFAH then
    (if ¬ s.1.is_wajib then FastingStatus.SunnahMuakkadah else s.1,
     s.2.1 ++ [ARAFAH], s.2.2 ++ [⟨.Arafah, none⟩])
  else s

/-- Model of `src/rules.rs` `analyze`, lines 283-287 (Ashura block). -/
def ashuraCheck (h_month h_day : Nat) (s : EvalState) : EvalState :=
  if h_month = MONTH_MUHARRAM ∧ h_day = DAY_ASHURA then
    (if ¬ s.1.is_wajib then FastingStatus.SunnahMuakkadah else s.1,
     s.2.1 ++ [ASHURA], s.2.2 ++ [⟨.Ashura, none⟩])
  else s

/-- Model of `src/rules.rs` `analyze`, lines 276-287 (Sunnah-Muakkadah stage: Arafah
then Ashura, each raising to SunnahMuakkadah unless already Wajib). -/
def sunnahMuakkadahStage (h_month h_day : Nat) (s : EvalState) : EvalState :=
  ashuraCheck h_month h_day (arafahCheck h_month h_day s)

/-- Model of `src/rules.rs` `analyze`, lines 290-296 (Tasu'a block, with its stricter
guard `!is_wajib && status != SunnahMuakkadah`). -/
def tasuaCheck (h_month h_day : Nat) (s : EvalState) : EvalState :=
  if h_month = MONTH_MUHARRAM ∧ h_day = DAY_TASUA then
    (if ¬ s.1.is_wajib ∧ s.1 ≠ .SunnahMuakkadah then FastingStatus.Sunnah else s.1,
     s.2.1 ++ [TASUA], s.2.2 ++ [⟨.Tasua, none⟩])
  else s

/-- Model of `src/rules.rs` `analyze`, lines 298-304 (Ayyamul Bidh block, days 13-15). -/
def ayyamulBidhCheck (h_day : Nat) (s : EvalState) : EvalState :=
  if 13 ≤ h_day ∧ h_day ≤ 15 then
    (raiseToSunnah s.1, s.2.1 ++ [AYYAMUL_BIDH], s.2.2 ++ [⟨.AyyamulBidh, none⟩])
  else s

/-- Model of `src/rules.rs` `analyze`, lines 306-318 (Monday/Thursday `match`). -/
def weekdayCheck (weekday : Weekday) (s : EvalState) : EvalState :=
  match weekday with
  | .mon => (raiseToSunnah s.1, s.2.1 ++ [MONDAY], s.2.2 ++ [⟨.Monday, none⟩])
  | .thu => (raiseToSunnah s.1, s.2.1 ++ [THURSDAY], s.2.2 ++ [⟨.Thursday, none⟩])
  | _ => s

/-- Model of `src/rules.rs` `analyze`, lines 320-324 (Shawwal days 2+ block). -/
def shawwalCheck (h_month h_day : Nat) (s : EvalState) : EvalState :=
  if h_month = MONTH_SHAWWAL ∧ 1 < h_day then
    (raiseToSunnah s.1, s.2.1 ++ [SHAWWAL], s.2.2 ++ [⟨.Shawwal, none⟩])
  else s

/-- Model of `src/rules.rs` `analyze`, lines 289-324 (Sunnah stage: Tasu'a, Ayyamul
Bidh, Monday/Thursday, Shawwal 2+, in source order). -/
def sunnahStage (h_month h_day : Nat) (weekday : Weekday) (s : EvalState) :
    EvalState :=
  shawwalCheck h_month h_day
    (weekdayCheck weekday
      (ayyamulBidhCheck h_day
        (tasuaCheck h_month h_day s)))

/-- Model of `src/rules.rs` `analyze`, lines 326-341 (Makruh stage; the `match` on the
madhab sends all four schools to the same arm). -/
def makruhStage (madhab : Madhab) (weekday : Weekday) (s : EvalState) :
    EvalState :=
  if s.1 = .Mubah then
    match madhab with
    | .Shafi | .Hanafi | .Maliki | .Hanbali =>
        if weekday = .fri then
          (.Makruh, s.2.1 ++ [FRIDAY_EXCLUSIVE], s.2.2 ++ [⟨.FridaySingledOut, none⟩])
        else if weekday = .sat then
          (.Makruh, s.2.1 ++ [SATURDAY_EXCLUSIVE], s.2.2 ++ [⟨.SaturdaySingledOut, none⟩])
        else s
  else s

/-- Model of `src/rules.rs` `analyze`, lines 343-350 (custom-rule fold:
`if custom_status > status { status = custom_status }`). -/
def customStage (rules : List CustomRule) (effDate : Int)
    (hy hm hd : Nat) (s : EvalState) : EvalState :=
  rules.foldl
    (fun acc rule =>
      match rule effDate hy hm hd with
      | some (cs, ct) =>
          (if acc.1.blt cs then cs else acc.1,
           acc.2.1 ++ [ct], acc.2.2 ++ [⟨.Custom, some ct⟩])
      | none => acc)
    s

/-- Model of `src/rules.rs` `analyze`, lines 245-352: the rule pipeline run after the
Hijri conversion.  The three Haram checks return immediately; otherwise the
stages run in order and the analysis is assembled from the final state. -/
def applyRules (datetime effDate : Int) (ctx : RuleContext)
    (traces0 : List RuleTrace) (hy hm hd : Nat) (weekday : Weekday) :
    FastingAnalysis :=
  if hm = MONTH_SHAWWAL ∧ hd = 1 then
    ⟨datetime, .Haram, hy, hm, hd, [EID_AL_FITR], traces0 ++ [⟨.EidAlFitr, none⟩]⟩
  else if hm = MONTH_DHUL_HIJJAH ∧ hd = 10 then
    ⟨datetime, .Haram, hy, hm, hd, [EID_AL_ADHA], traces0 ++ [⟨.EidAlAdha, none⟩]⟩
  else if hm = MONTH_DHUL_HIJJAH ∧ (11 ≤ hd ∧ hd ≤ 13) then
    ⟨datetime, .Haram, hy, hm, hd, [TASHRIQ], traces0 ++ [⟨.Tashriq, none⟩]⟩
  else
    let s0 : EvalState := (.Mubah, [], traces0)
    let s :=
      customStage ctx.custom_rules effDate hy hm hd
        (makruhStage ctx.madhab weekday
          (sunnahStage hm hd weekday
            (sunnahMuakkadahStage hm hd
              (wajibStage hm s0))))
    ⟨datetime, s.1, hy, hm, hd, s.2.1, s.2.2⟩

/-- Function `DateTime::date_naive`: day number of a timestamp (seconds). -/
def dateOfTimestamp (ts : Int) : Int := fdiv ts 86400

/-- Model of `src/rules.rs` `analyze`, lines 214-225 (Maghrib rollover).  The
`SunsetCalculator` result for the query date is passed in as `sunset?`
(`none` when no coordinates are supplied or the calculation fails; the
floating-point `SimpleSunsetCalculator` itself is outside this model).
Returns the effective date and the rollover trace, if any. -/
def effectiveDate (sunset? : Option Int) (ts : Int) : Int × List RuleTrace :=
  match sunset? with
  | some s =>
      if s < ts then
        (dateOfTimestamp ts + 1,
         [⟨.Debug, some "Post-Maghrib: Effective date +1"⟩])
      else (dateOfTimestamp ts, [])
  | none => (dateOfTimestamp ts, [])

/-- Model of `src/rules.rs` `analyze`: effective-date rollover, strict-mode year check
(note: on the *unadjusted* effective date), Hijri conversion, rule pipeline.
In the lenient out-of-range branch the source pushes a "Clamping applied."
trace but passes the *unclamped* date on to `to_hijri`; the source then reads
the fields of `to_hijri`'s `Result` without unwrapping it (rules.rs line 239,
which does not type-check against calendar.rs), so the conversion's error is
modelled as propagating — no analysis is produced on that path. -/
def analyze (fromGr : FromGr) (sunset? : Option Int) (datetime : Int)
    (ctx : RuleContext) : Except ShaumError FastingAnalysis :=
  let ed := (effectiveDate sunset? datetime).1
  let traces0 := (effectiveDate sunset? datetime).2
  let year := yearOfDays ed
  let outOfRange := year < HIJRI_MIN_YEAR ∨ HIJRI_MAX_YEAR < year
  if outOfRange ∧ ctx.strict then
    .error (dateOutOfRangeErr ed)
  else
    let traces1 :=
      if outOfRange then
        traces0 ++
          [⟨.Debug,
            some "Date outside supported Hijri range (1938-2076). Clamping applied."⟩]
      else traces0
    match to_hijri fromGr ed ctx.adjustment with
    | .error e => .error e
    | .ok (hy, hm, hd) =>
        .ok (applyRules datetime ed ctx traces1 hy hm hd (weekdayOfDays ed))

/-- Noon UTC of a day number, in seconds (`g_date.and_hms_opt(12, 0, 0)`). -/
def noonUtc (z : Int) : Int := z * 86400 + 43200

/-- Model of `src/rules.rs` `check`: analyze at noon UTC with no coordinates; on error,
fabricate a dummy Mubah analysis with hijri (1400, 1, 1). -/
def check (fromGr : FromGr) (g_date : Int) (ctx : RuleContext) :
    FastingAnalysis :=
  let dt := noonUtc g_date
  match analyze fromGr none dt ctx with
  | .ok a => a
  | .error _ => ⟨dt, .Mubah, 1400, 1, 1, [], []⟩

/-- Model of `src/lib.rs` `DaudIterator::next`, unrolled over the remaining days
(`fuel` = number of dates with `current ≤ end`): the list of emitted dates.
State `sf` is `should_fast` (initially `true`). -/
def daudRun (fromGr : FromGr) (ctx : RuleContext) :
    Nat → Int → Bool → List Int
  | 0, _, _ => []
  | n + 1, cur, sf =>
      let analysis := check fromGr cur ctx
      if analysis.primary_status.is_haram then
        match ctx.daud_strategy with
        | .Skip => daudRun fromGr ctx n (cur + 1) (!sf)
        | .Postpone => daudRun fromGr ctx n (cur + 1) sf
      else if sf then cur :: daudRun fromGr ctx n (cur + 1) false
      else daudRun fromGr ctx n (cur + 1) true

/-- Model of `src/lib.rs` `generate_daud_schedule` / collecting `DaudIterator`: all
dates the iterator emits over `[start, stop]`. -/
def daudSchedule (fromGr : FromGr) (ctx : RuleContext) (start stop : Int) :
    List Int :=
  daudRun fromGr ctx (stop - start + 1).toNat start true

/-- One bisection step of `src/astronomy/prayer.rs` `find_sun_altitude_time`
(loop body, lines 50-75).  Times are seconds from the local midnight of the
query date; `alt` abstracts the solar-altitude pipeline evaluated at the
midpoint (`vsop87` → obliquity → equatorial → sidereal → horizontal, a pure
function of the instant), with altitudes in an ordered scale. -/
def bisectStep (alt : Int → Int) (target : Int) (is_morning : Bool)
    (p : Int × Int) : Int × Int :=
  let mid := p.1 + (p.2 - p.1) / 2
  if is_morning then
    if alt mid < target then (mid, p.2) else (p.1, mid)
  else
    if target < alt mid then (mid, p.2) else (p.1, mid)

/-- The initial search bracket (prayer.rs lines 41-47): morning = midnight to
noon, evening = noon to midnight, in seconds from local midnight. -/
def bisectInit (is_morning : Bool) : Int × Int :=
  if is_morning then (0, 43200) else (43200, 86400)

/-- Model of `src/astronomy/prayer.rs` `find_sun_altitude_time`: 20 bisection steps
from the initial bracket, then the midpoint of the final bracket. -/
def find_sun_altitude_time (alt : Int → Int) (target : Int)
    (is_morning : Bool) : Int :=
  let final := (bisectStep alt target is_morning)^[20] (bisectInit is_morning)
  final.1 + (final.2 - final.1) / 2


/-- Invariant of the bisection bracket: nested inside the initial window and
ordered. -/
def BracketInv (lo0 hi0 : Int) (p : Int × Int) : Prop :=
  lo0 ≤ p.1 ∧ p.1 ≤ p.2 ∧ p.2 ≤ hi0

/-- Status after stages 3-6 (Wajib, Sunnah-Muakkadah, Sunnah) from a Mubah
start: the status against which the Makruh stage reachability is defined. -/
def statusAfterSunnah (hm hd : Nat) (w : Weekday) : FastingStatus :=
  (sunnahStage hm hd w
    (sunnahMuakkadahStage hm hd
      (wajibStage hm (FastingStatus.Mubah, [], [])))).1

/-!
Concrete data for the closed witness instances.
-/

/-- Day number of 2024-04-10 (the Gregorian date of 1 Shawwal 1445). -/
def zEid : Int := daysFromCivil 2024 4 10

/-- Day number of 1900-01-01, outside the supported range. -/
def z1900 : Int := daysFromCivil 1900 1 1

/-- Day number of 2024-04-12, a Friday. -/
def zFri : Int := daysFromCivil 2024 4 12

/-- The default context with `strict` enabled. -/
def strictCtx : RuleContext := { RuleContext.default with strict := true }

/-- Converter instance mapping day `zEid + k` to Shawwal day `k + 1`, 1445. -/
def fgShawwal : FromGr := fun z => .ok (1445, 10, (z - zEid + 1).toNat)

/-- Converter instance constantly 1 Shawwal 1445 (Eid al-Fitr). -/
def fgEid : FromGr := fun _ => .ok (1445, 10, 1)

/-- Converter instance constantly 5 Ramadhan 1445. -/
def fgRamadhan : FromGr := fun _ => .ok (1445, 9, 5)

/-- Converter instance constantly 9 Dhul-Hijjah 1445 (Arafah). -/
def fgArafah : FromGr := fun _ => .ok (1445, 12, 9)

/-- Converter instance constantly 5 Dhul-Qidah 1445, an ordinary day. -/
def fgPlain : FromGr := fun _ => .ok (1445, 11, 5)

/-- Reconstructor instance returning its arguments. -/
def fhId : FromHijri := fun y m d => .ok (y, m, d)

/-- The analysis `analyze` produces for `fgEid` at noon of `zEid`. -/
def aEid : FastingAnalysis :=
  ⟨noonUtc zEid, .Haram, 1445, 10, 1, [EID_AL_FITR], [⟨.EidAlFitr, none⟩]⟩

/-- The analysis `analyze` produces for `fgRamadhan` at noon of `zEid`. -/
def aRamadhan : FastingAnalysis :=
  ⟨noonUtc zEid, .Wajib, 1445, 9, 5, [RAMADHAN], [⟨.Ramadhan, none⟩]⟩

/-- The analysis `analyze` produces for `fgArafah` at noon of `zFri`. -/
def aArafah : FastingAnalysis :=
  ⟨noonUtc zFri, .SunnahMuakkadah, 1445, 12, 9, [ARAFAH], [⟨.Arafah, none⟩]⟩


set_option maxHeartbeats 8000000 in
/-- Claim C2 (code bug): for an out-of-range date the lenient (non-strict)
path does NOT clamp and still produce an analysis — `analyze` at noon of
1900-01-01 under the default lenient context returns the `DateOutOfRange`
error (propagated from `to_hijri`, whose bounds check does not consult
`strict`), for every converter; under the strict context the same error is
returned.  The source even appends a "Clamping applied." trace on this path
without clamping anything. -/
theorem C2_lenient_out_of_range_errors (fromGr : FromGr) :
    analyze fromGr none (noonUtc z1900) RuleContext.default =
      .error (dateOutOfRangeErr z1900) ∧
    analyze fromGr none (noonUtc z1900) strictCtx =
      .error (dateOutOfRangeErr z1900) := ⟨rfl, rfl⟩

/-- Claim C10: whenever the underlying `analyze` call fails, the infallible
convenience entry point `check` swallows the error and returns a fabricated
analysis with status Mubah, an empty reasons list and the fixed hijri triple
(1400, 1, 1). -/
theorem C10_check_fabricates_mubah (fromGr : FromGr) (g_date : Int) (ctx : RuleContext) (e : ShaumError)
    (h : analyze fromGr none (noonUtc g_date) ctx = .error e) :
    check fromGr g_date ctx = ⟨noonUtc g_date, .Mubah, 1400, 1, 1, [], []⟩ := by
  have hu : check fromGr g_date ctx =
      match analyze fromGr none (noonUtc g_date) ctx with
      | .ok a => a
      | .error _ => ⟨noonUtc g_date, .Mubah, 1400, 1, 1, [], []⟩ := rfl
  rw [hu, h]

/-- Claim C8 counterexample: with the constant altitude 0 the target is never
attained inside either window (0 never equals -100, and stays strictly above
it; likewise strictly below 100), yet `find_sun_altitude_time` still returns a
numeric instant — there is no endpoint sign check and no `SolarEventNotFound`
error path anywhere in the function (its result type is a plain time). -/
theorem C8_returns_time_when_unattainable :
    ((0:Int) ≠ -100) ∧
    find_sun_altitude_time (fun _ => 0) (-100) false = 86399 ∧
    find_sun_altitude_time (fun _ => 0) 100 true = 43199 := by
  refine ⟨by decide, by rfl, by rfl⟩

theorem bisectStep_inv (alt : Int → Int) (target : Int) (m : Bool)
    (lo0 hi0 : Int) (p : Int × Int) (h : BracketInv lo0 hi0 p) :
    BracketInv lo0 hi0 (bisectStep alt target m p) := by
  obtain ⟨h1, h2, h3⟩ := h
  have hmid : p.1 ≤ p.1 + (p.2 - p.1) / 2 ∧ p.1 + (p.2 - p.1) / 2 ≤ p.2 := by omega
  simp only [bisectStep]
  split_ifs <;> exact ⟨by simp; omega, by simp; omega, by simp; omega⟩

theorem bisect_iter_inv (alt : Int → Int) (target : Int) (m : Bool)
    (lo0 hi0 : Int) (n : Nat) (p : Int × Int) (h : BracketInv lo0 hi0 p) :
    BracketInv lo0 hi0 ((bisectStep alt target m)^[n] p) := by
  induction n generalizing p with
  | zero => simpa using h
  | succ k ih =>
      rw [Function.iterate_succ_apply]
      exact ih _ (bisectStep_inv alt target m lo0 hi0 p h)

/-- Claim C8 amended: the altitude-crossing search is total and never
reports failure — for every altitude function, target and direction it
unconditionally runs the bisection and returns the final midpoint, a numeric
instant inside the original search window. -/
theorem C8_total_in_window (alt : Int → Int) (target : Int) (m : Bool) :
    (bisectInit m).1 ≤ find_sun_altitude_time alt target m ∧
    find_sun_altitude_time alt target m ≤ (bisectInit m).2 := by
  have h0 : BracketInv (bisectInit m).1 (bisectInit m).2 (bisectInit m) := by
    unfold BracketInv bisectInit; split <;> simp
  obtain ⟨h1, h2, h3⟩ :=
    bisect_iter_inv alt target m (bisectInit m).1 (bisectInit m).2 20 (bisectInit m) h0
  simp only [find_sun_altitude_time]
  constructor <;> omega

/-- Claim C7: the altitude-crossing search performs exactly 20 bisection
iterations over the window [midnight, +12h] (morning) or [+12h, +24h]
(evening), each step moving the lower bound up when the midpoint altitude is
below the target (morning; the evening comparator reversed) and the upper
bound down otherwise, and returns the midpoint of the final bracket. -/
theorem C7_bisection_structure (alt : Int → Int) (target : Int) :
    (∀ m : Bool, find_sun_altitude_time alt target m =
      ((bisectStep alt target m)^[20] (bisectInit m)).1 +
        (((bisectStep alt target m)^[20] (bisectInit m)).2 -
          ((bisectStep alt target m)^[20] (bisectInit m)).1) / 2) ∧
    bisectInit true = (0, 43200) ∧ bisectInit false = (43200, 86400) ∧
    (∀ lo hi : Int,
      (alt (lo + (hi - lo) / 2) < target →
        bisectStep alt target true (lo, hi) = (lo + (hi - lo) / 2, hi)) ∧
      (¬ alt (lo + (hi - lo) / 2) < target →
        bisectStep alt target true (lo, hi) = (lo, lo + (hi - lo) / 2)) ∧
      (target < alt (lo + (hi - lo) / 2) →
        bisectStep alt target false (lo, hi) = (lo + (hi - lo) / 2, hi)) ∧
      (¬ target < alt (lo + (hi - lo) / 2) →
        bisectStep alt target false (lo, hi) = (lo, lo + (hi - lo) / 2))) := by
  refine ⟨fun m => rfl, rfl, rfl, fun lo hi => ⟨?_, ?_, ?_, ?_⟩⟩ <;>
    intro h <;> simp [bisectStep, h]

theorem to_hijriCached_miss (fromGr : FromGr) (fromHijri : FromHijri)
    (cache : HijriCache) (date adjustment : Int)
    (h : cacheLookup cache date adjustment = none) :
    (to_hijriCached fromGr fromHijri cache date adjustment).1 =
      to_hijri fromGr date adjustment := by
  simp only [to_hijriCached, h, to_hijri]
  split
  · rfl
  · split <;> rfl

/-- Claim C9: the single-slot memo is observably transparent — for any cache
state the code can reach (empty, or holding a key with its true conversion
result, since only successful conversions are stored) and any converter whose
`from_hijri` reconstructs `from_gr` outputs, the cached conversion returns
exactly what the direct arithmetic path returns, whether the probe hits,
misses, or the slot is empty. -/
theorem C9_cache_transparent (fromGr : FromGr) (fromHijri : FromHijri) (cache : HijriCache)
    (date adjustment : Int)
    (hc : ∀ d adj y m day, cache = some (d, adj, y, m, day) →
        to_hijri fromGr d adj = .ok (y, m, day))
    (hr : ∀ z y m d, fromGr z = .ok (y, m, d) → fromHijri y m d = .ok (y, m, d)) :
    (to_hijriCached fromGr fromHijri cache date adjustment).1 =
      to_hijri fromGr date adjustment := by
  match cache with
  | none => exact to_hijriCached_miss _ _ _ _ _ (by simp [cacheLookup])
  | some (d, adj, y, m, day) =>
      by_cases hkey : d = date ∧ adj = adjustment
      · obtain ⟨rfl, rfl⟩ := hkey
        have hlook : cacheLookup (some (d, adj, y, m, day)) d adj = some (y, m, day) := by
          simp [cacheLookup]
        have hdir := hc d adj y m day rfl
        simp only [to_hijriCached, hlook]
        rw [hdir]
        simp only [to_hijri] at hdir
        split at hdir
        · exact absurd hdir (by simp)
        · revert hdir
          split
          · intro hdir; exact absurd hdir (by simp)
          · rename_i h hfg
            intro hdir
            have heq : _ = (y, m, day) := Except.ok.inj hdir
            subst heq
            rw [hr _ _ _ _ hfg]
      · refine to_hijriCached_miss _ _ _ _ _ ?_
        simp only [cacheLookup, if_neg hkey]

theorem daudRun_not_haram (fromGr : FromGr) (ctx : RuleContext) :
    ∀ (n : Nat) (cur : Int) (sf : Bool) (d : Int),
      d ∈ daudRun fromGr ctx n cur sf →
      (check fromGr d ctx).primary_status.is_haram = false := by
  intro n
  induction n with
  | zero => intro cur sf d hd; simp [daudRun] at hd
  | succ k ih =>
      intro cur sf d hd
      simp only [daudRun] at hd
      split at hd
      · split at hd
        · exact ih _ _ _ hd
        · exact ih _ _ _ hd
      · rename_i hh
        split at hd
        · rcases List.mem_cons.1 hd with rfl | hmem
          · simpa using hh
          · exact ih _ _ _ hmem
        · exact ih _ _ _ hd

/-- Claim C3: for every converter, context, range and strategy, every date
emitted by the Daud schedule has rule-engine status (recomputed independently
by the same deterministic `check`) that is not Haram. -/
theorem C3_daud_never_emits_haram (fromGr : FromGr) (ctx : RuleContext) (start stop d : Int)
    (hd : d ∈ daudSchedule fromGr ctx start stop) :
    ¬ (check fromGr d ctx).primary_status = FastingStatus.Haram := by
  have h := daudRun_not_haram fromGr ctx _ _ _ _ hd
  intro hc
  rw [hc] at h
  simp [FastingStatus.is_haram] at h

theorem analyze_ok_eq (fromGr : FromGr) (sunset? : Option Int) (datetime : Int)
    (ctx : RuleContext) (a : FastingAnalysis) (hy hm hd : Nat)
    (hok : analyze fromGr sunset? datetime ctx = .ok a)
    (hconv : to_hijri fromGr (effectiveDate sunset? datetime).1 ctx.adjustment =
      .ok (hy, hm, hd)) :
    ∃ tr, a = applyRules datetime (effectiveDate sunset? datetime).1 ctx tr hy hm hd
      (weekdayOfDays (effectiveDate sunset? datetime).1) := by
  simp only [analyze] at hok
  split at hok
  · exact absurd hok (by simp)
  · rw [hconv] at hok
    simp only [Except.ok.injEq] at hok
    exact ⟨_, hok.symm⟩

/-- Claim C1: for every evaluated date whose converted Hijri date is
1 Shawwal, 10 Dhul-Hijjah, or 11-13 Dhul-Hijjah, `analyze` returns status
exactly Haram with exactly the single reason EidAlFitr / EidAlAdha / Tashriq
respectively — no later stage runs, adds reasons, or alters the status. -/
theorem C1_haram_absolute_priority (fromGr : FromGr) (sunset? : Option Int) (datetime : Int)
    (ctx : RuleContext) (a : FastingAnalysis) (hy hm hd : Nat)
    (hok : analyze fromGr sunset? datetime ctx = .ok a)
    (hconv : to_hijri fromGr (effectiveDate sunset? datetime).1 ctx.adjustment =
      .ok (hy, hm, hd)) :
    ((hm = MONTH_SHAWWAL ∧ hd = 1) →
      a.primary_status = .Haram ∧ a.reasons = [EID_AL_FITR]) ∧
    ((hm = MONTH_DHUL_HIJJAH ∧ hd = 10) →
      a.primary_status = .Haram ∧ a.reasons = [EID_AL_ADHA]) ∧
    ((hm = MONTH_DHUL_HIJJAH ∧ 11 ≤ hd ∧ hd ≤ 13) →
      a.primary_status = .Haram ∧ a.reasons = [TASHRIQ]) := by
  obtain ⟨tr, rfl⟩ := analyze_ok_eq fromGr sunset? datetime ctx a hy hm hd hok hconv
  refine ⟨?_, ?_, ?_⟩
  · rintro ⟨rfl, rfl⟩
    simp [applyRules]
  · rintro ⟨rfl, rfl⟩
    simp [applyRules, MONTH_SHAWWAL, MONTH_DHUL_HIJJAH]
  · rintro ⟨rfl, h11, h13⟩
    have h1 : hd ≠ 1 := by omega
    have h10 : hd ≠ 10 := by omega
    simp [applyRules, MONTH_SHAWWAL, MONTH_DHUL_HIJJAH, h1, h10, h11, h13]

-- raiseToSunnah facts
theorem raiseToSunnah_wajib : raiseToSunnah .Wajib = .Wajib := by decide
theorem raiseToSunnah_makruh (st : FastingStatus)
    (h : raiseToSunnah st = .Makruh) : st = .Makruh := by
  cases st <;> revert h <;> decide

-- arafahCheck
theorem arafahCheck_fst_wajib (hm hd : Nat) (s : EvalState) (h : s.1 = .Wajib) :
    (arafahCheck hm hd s).1 = .Wajib := by
  simp only [arafahCheck]; split_ifs <;> simp_all [FastingStatus.is_wajib]
theorem arafahCheck_fst_congr (hm hd : Nat) {s t : EvalState} (h : s.1 = t.1) :
    (arafahCheck hm hd s).1 = (arafahCheck hm hd t).1 := by
  simp only [arafahCheck]; split_ifs <;> simp_all
theorem arafahCheck_types_mono (hm hd : Nat) (s : EvalState) (x : FastingType)
    (h : x ∈ s.2.1) : x ∈ (arafahCheck hm hd s).2.1 := by
  simp only [arafahCheck]; split_ifs <;> simp_all
theorem arafahCheck_fst_makruh (hm hd : Nat) (s : EvalState)
    (h : (arafahCheck hm hd s).1 = .Makruh) : s.1 = .Makruh := by
  simp only [arafahCheck] at h; split_ifs at h <;> simp_all

-- ashuraCheck
theorem ashuraCheck_fst_wajib (hm hd : Nat) (s : EvalState) (h : s.1 = .Wajib) :
    (ashuraCheck hm hd s).1 = .Wajib := by
  simp only [ashuraCheck]; split_ifs <;> simp_all [FastingStatus.is_wajib]
theorem ashuraCheck_fst_congr (hm hd : Nat) {s t : EvalState} (h : s.1 = t.1) :
    (ashuraCheck hm hd s).1 = (ashuraCheck hm hd t).1 := by
  simp only [ashuraCheck]; split_ifs <;> simp_all
theorem ashuraCheck_types_mono (hm hd : Nat) (s : EvalState) (x : FastingType)
    (h : x ∈ s.2.1) : x ∈ (ashuraCheck hm hd s).2.1 := by
  simp only [ashuraCheck]; split_ifs <;> simp_all
theorem ashuraCheck_fst_makruh (hm hd : Nat) (s : EvalState)
    (h : (ashuraCheck hm hd s).1 = .Makruh) : s.1 = .Makruh := by
  simp only [ashuraCheck] at h; split_ifs at h <;> simp_all

-- tasuaCheck
theorem tasuaCheck_fst_wajib (hm hd : Nat) (s : EvalState) (h : s.1 = .Wajib) :
    (tasuaCheck hm hd s).1 = .Wajib := by
  simp only [tasuaCheck]; split_ifs <;> simp_all [FastingStatus.is_wajib]
theorem tasuaCheck_fst_congr (hm hd : Nat) {s t : EvalState} (h : s.1 = t.1) :
    (tasuaCheck hm hd s).1 = (tasuaCheck hm hd t).1 := by
  simp only [tasuaCheck]; split_ifs <;> simp_all
theorem tasuaCheck_types_mono (hm hd : Nat) (s : EvalState) (x : FastingType)
    (h : x ∈ s.2.1) : x ∈ (tasuaCheck hm hd s).2.1 := by
  simp only [tasuaCheck]; split_ifs <;> simp_all
theorem tasuaCheck_fst_makruh (hm hd : Nat) (s : EvalState)
    (h : (tasuaCheck hm hd s).1 = .Makruh) : s.1 = .Makruh := by
  simp only [tasuaCheck] at h; split_ifs at h <;> simp_all

-- ayyamulBidhCheck
theorem ayyamulBidhCheck_fst_wajib (hd : Nat) (s : EvalState) (h : s.1 = .Wajib) :
    (ayyamulBidhCheck hd s).1 = .Wajib := by
  simp only [ayyamulBidhCheck]; split_ifs <;> simp_all [raiseToSunnah_wajib]
theorem ayyamulBidhCheck_fst_congr (hd : Nat) {s t : EvalState} (h : s.1 = t.1) :
    (ayyamulBidhCheck hd s).1 = (ayyamulBidhCheck hd t).1 := by
  simp only [ayyamulBidhCheck]; split_ifs <;> simp_all
theorem ayyamulBidhCheck_types_mono (hd : Nat) (s : EvalState) (x : FastingType)
    (h : x ∈ s.2.1) : x ∈ (ayyamulBidhCheck hd s).2.1 := by
  simp only [ayyamulBidhCheck]; split_ifs <;> simp_all
theorem ayyamulBidhCheck_fst_makruh (hd : Nat) (s : EvalState)
    (h : (ayyamulBidhCheck hd s).1 = .Makruh) : s.1 = .Makruh := by
  simp only [ayyamulBidhCheck] at h
  split_ifs at h
  · exact raiseToSunnah_makruh _ h
  · exact h

-- weekdayCheck
theorem weekdayCheck_fst_wajib (w : Weekday) (s : EvalState) (h : s.1 = .Wajib) :
    (weekdayCheck w s).1 = .Wajib := by
  cases w <;> simp_all [weekdayCheck, raiseToSunnah_wajib]
theorem weekdayCheck_fst_congr (w : Weekday) {s t : EvalState} (h : s.1 = t.1) :
    (weekdayCheck w s).1 = (weekdayCheck w t).1 := by
  cases w <;> simp_all [weekdayCheck]
theorem weekdayCheck_types_mono (w : Weekday) (s : EvalState) (x : FastingType)
    (h : x ∈ s.2.1) : x ∈ (weekdayCheck w s).2.1 := by
  cases w <;> simp_all [weekdayCheck]
theorem weekdayCheck_fst_makruh (w : Weekday) (s : EvalState)
    (h : (weekdayCheck w s).1 = .Makruh) : s.1 = .Makruh := by
  cases w <;> simp only [weekdayCheck] at h <;>
    first
      | exact h
      | exact raiseToSunnah_makruh _ h

-- shawwalCheck
theorem shawwalCheck_fst_wajib (hm hd : Nat) (s : EvalState) (h : s.1 = .Wajib) :
    (shawwalCheck hm hd s).1 = .Wajib := by
  simp only [shawwalCheck]; split_ifs <;> simp_all [raiseToSunnah_wajib]
theorem shawwalCheck_fst_congr (hm hd : Nat) {s t : EvalState} (h : s.1 = t.1) :
    (shawwalCheck hm hd s).1 = (shawwalCheck hm hd t).1 := by
  simp only [shawwalCheck]; split_ifs <;> simp_all
theorem shawwalCheck_types_mono (hm hd : Nat) (s : EvalState) (x : FastingType)
    (h : x ∈ s.2.1) : x ∈ (shawwalCheck hm hd s).2.1 := by
  simp only [shawwalCheck]; split_ifs <;> simp_all
theorem shawwalCheck_fst_makruh (hm hd : Nat) (s : EvalState)
    (h : (shawwalCheck hm hd s).1 = .Makruh) : s.1 = .Makruh := by
  simp only [shawwalCheck] at h
  split_ifs at h
  · exact raiseToSunnah_makruh _ h
  · exact h

-- wajibStage
theorem wajibStage_fst_congr (hm : Nat) {s t : EvalState} (h : s.1 = t.1) :
    (wajibStage hm s).1 = (wajibStage hm t).1 := by
  simp only [wajibStage]; split_ifs <;> simp_all
theorem wajibStage_fst_makruh (hm : Nat) (s : EvalState)
    (h : (wajibStage hm s).1 = .Makruh) : s.1 = .Makruh := by
  simp only [wajibStage] at h; split_ifs at h <;> simp_all

-- stage compositions
theorem sunnahMuakkadahStage_fst_wajib (hm hd : Nat) (s : EvalState)
    (h : s.1 = .Wajib) : (sunnahMuakkadahStage hm hd s).1 = .Wajib :=
  ashuraCheck_fst_wajib _ _ _ (arafahCheck_fst_wajib _ _ _ h)
theorem sunnahMuakkadahStage_fst_congr (hm hd : Nat) {s t : EvalState}
    (h : s.1 = t.1) :
    (sunnahMuakkadahStage hm hd s).1 = (sunnahMuakkadahStage hm hd t).1 :=
  ashuraCheck_fst_congr _ _ (arafahCheck_fst_congr _ _ h)
theorem sunnahMuakkadahStage_types_mono (hm hd : Nat) (s : EvalState)
    (x : FastingType) (h : x ∈ s.2.1) : x ∈ (sunnahMuakkadahStage hm hd s).2.1 :=
  ashuraCheck_types_mono _ _ _ _ (arafahCheck_types_mono _ _ _ _ h)
theorem sunnahMuakkadahStage_fst_makruh (hm hd : Nat) (s : EvalState)
    (h : (sunnahMuakkadahStage hm hd s).1 = .Makruh) : s.1 = .Makruh :=
  arafahCheck_fst_makruh _ _ _ (ashuraCheck_fst_makruh _ _ _ h)

theorem sunnahStage_fst_wajib (hm hd : Nat) (w : Weekday) (s : EvalState)
    (h : s.1 = .Wajib) : (sunnahStage hm hd w s).1 = .Wajib :=
  shawwalCheck_fst_wajib _ _ _
    (weekdayCheck_fst_wajib _ _
      (ayyamulBidhCheck_fst_wajib _ _
        (tasuaCheck_fst_wajib _ _ _ h)))
theorem sunnahStage_fst_congr (hm hd : Nat) (w : Weekday) {s t : EvalState}
    (h : s.1 = t.1) : (sunnahStage hm hd w s).1 = (sunnahStage hm hd w t).1 :=
  shawwalCheck_fst_congr _ _
    (weekdayCheck_fst_congr _
      (ayyamulBidhCheck_fst_congr _
        (tasuaCheck_fst_congr _ _ h)))
theorem sunnahStage_types_mono (hm hd : Nat) (w : Weekday) (s : EvalState)
    (x : FastingType) (h : x ∈ s.2.1) : x ∈ (sunnahStage hm hd w s).2.1 :=
  shawwalCheck_types_mono _ _ _ _
    (weekdayCheck_types_mono _ _ _
      (ayyamulBidhCheck_types_mono _ _ _
        (tasuaCheck_types_mono _ _ _ _ h)))
theorem sunnahStage_fst_makruh (hm hd : Nat) (w : Weekday) (s : EvalState)
    (h : (sunnahStage hm hd w s).1 = .Makruh) : s.1 = .Makruh :=
  tasuaCheck_fst_makruh _ _ _
    (ayyamulBidhCheck_fst_makruh _ _
      (weekdayCheck_fst_makruh _ _
        (shawwalCheck_fst_makruh _ _ _ h)))

-- makruhStage
theorem makruhStage_ne_mubah (m : Madhab) (w : Weekday) (s : EvalState)
    (h : s.1 ≠ .Mubah) : makruhStage m w s = s := by
  simp [makruhStage, h]
theorem makruhStage_fst (m : Madhab) (w : Weekday) (s : EvalState) :
    (makruhStage m w s).1 =
      if s.1 = .Mubah ∧ (w = .fri ∨ w = .sat) then .Makruh else s.1 := by
  cases m <;> cases w <;> simp only [makruhStage] <;> split_ifs <;> simp_all
theorem makruhStage_fired_fri (m : Madhab) (s : EvalState) (h : s.1 = .Mubah) :
    makruhStage m .fri s =
      (.Makruh, s.2.1 ++ [FRIDAY_EXCLUSIVE], s.2.2 ++ [⟨.FridaySingledOut, none⟩]) := by
  cases m <;> simp [makruhStage, h]
theorem makruhStage_fired_sat (m : Madhab) (s : EvalState) (h : s.1 = .Mubah) :
    makruhStage m .sat s =
      (.Makruh, s.2.1 ++ [SATURDAY_EXCLUSIVE], s.2.2 ++ [⟨.SaturdaySingledOut, none⟩]) := by
  cases m <;> simp [makruhStage, h]

theorem customStage_nil (effDate : Int) (hy hm hd : Nat) (s : EvalState) :
    customStage [] effDate hy hm hd s = s := rfl
theorem makruhStage_types_mono (m : Madhab) (w : Weekday) (s : EvalState)
    (x : FastingType) (h : x ∈ s.2.1) : x ∈ (makruhStage m w s).2.1 := by
  cases m <;> cases w <;> simp only [makruhStage] <;> split_ifs <;> simp_all

theorem chain_fst_eq (hm hd : Nat) (w : Weekday) (tr : List RuleTrace) :
    (sunnahStage hm hd w (sunnahMuakkadahStage hm hd
      (wajibStage hm (FastingStatus.Mubah, [], tr)))).1 =
      statusAfterSunnah hm hd w := by
  unfold statusAfterSunnah
  exact sunnahStage_fst_congr _ _ _
    (sunnahMuakkadahStage_fst_congr _ _ (wajibStage_fst_congr _ rfl))

theorem statusAfterSunnah_ne_makruh (hm hd : Nat) (w : Weekday) :
    statusAfterSunnah hm hd w ≠ .Makruh := by
  intro h
  unfold statusAfterSunnah at h
  have h2 := sunnahStage_fst_makruh _ _ _ _ h
  have h3 := sunnahMuakkadahStage_fst_makruh _ _ _ h2
  have h4 := wajibStage_fst_makruh _ _ h3
  simp at h4

theorem wajibStage_ramadhan (s : EvalState) :
    wajibStage MONTH_RAMADHAN s =
      (.Wajib, s.2.1 ++ [RAMADHAN], s.2.2 ++ [⟨.Ramadhan, none⟩]) := by
  simp [wajibStage]

/-- Claim C4: for every evaluated date whose converted Hijri month is 9
(Ramadhan), with no custom rules registered, the final status is exactly
Wajib — the Wajib stage sets it and no later stage lowers it, while the
Ramadhan reason is recorded. -/
theorem C4_ramadhan_exactly_wajib (fromGr : FromGr) (sunset? : Option Int) (datetime : Int)
    (ctx : RuleContext) (a : FastingAnalysis) (hy hd : Nat)
    (hcustom : ctx.custom_rules = [])
    (hok : analyze fromGr sunset? datetime ctx = .ok a)
    (hconv : to_hijri fromGr (effectiveDate sunset? datetime).1 ctx.adjustment =
      .ok (hy, MONTH_RAMADHAN, hd)) :
    a.primary_status = .Wajib ∧ RAMADHAN ∈ a.reasons := by
  obtain ⟨tr, rfl⟩ := analyze_ok_eq fromGr sunset? datetime ctx a hy MONTH_RAMADHAN hd hok hconv
  have hH1 : ¬ (MONTH_RAMADHAN = MONTH_SHAWWAL ∧ hd = 1) := by
    simp [MONTH_RAMADHAN, MONTH_SHAWWAL]
  have hH2 : ¬ (MONTH_RAMADHAN = MONTH_DHUL_HIJJAH ∧ hd = 10) := by
    simp [MONTH_RAMADHAN, MONTH_DHUL_HIJJAH]
  have hH3 : ¬ (MONTH_RAMADHAN = MONTH_DHUL_HIJJAH ∧ (11 ≤ hd ∧ hd ≤ 13)) := by
    simp [MONTH_RAMADHAN, MONTH_DHUL_HIJJAH]
  simp only [applyRules, if_neg hH1, if_neg hH2, if_neg hH3, hcustom, customStage_nil,
    wajibStage_ramadhan]
  have hsm : (sunnahMuakkadahStage MONTH_RAMADHAN hd
      ((FastingStatus.Wajib : FastingStatus),
        ([] : List FastingType) ++ [RAMADHAN], tr ++ [⟨.Ramadhan, none⟩])).1 = .Wajib :=
    sunnahMuakkadahStage_fst_wajib _ _ _ rfl
  have hst := sunnahStage_fst_wajib MONTH_RAMADHAN hd
      (weekdayOfDays (effectiveDate sunset? datetime).1) _ hsm
  have hmem := sunnahStage_types_mono MONTH_RAMADHAN hd
      (weekdayOfDays (effectiveDate sunset? datetime).1) _ RAMADHAN
      (sunnahMuakkadahStage_types_mono MONTH_RAMADHAN hd
        ((FastingStatus.Wajib : FastingStatus),
          ([] : List FastingType) ++ [RAMADHAN],
          tr ++ [⟨(.Ramadhan : TraceCode), none⟩])
        RAMADHAN (by simp))
  refine ⟨?_, makruhStage_types_mono _ _ _ _ hmem⟩
  rw [makruhStage_fst, hst]
  simp

/-- Claim C5: on a non-Haram day with no custom rules, the Makruh stage fires
(final status Makruh, with the FridayExclusive / SaturdayExclusive reason
recorded) exactly when the weekday is Friday or Saturday and the status after
stages 3-6 is still Mubah (no Wajib / Sunnah-Muakkadah / Sunnah reason
applies); in particular a Friday that is also Arafah (9 Dhul-Hijjah) ends
SunnahMuakkadah, never Makruh. -/
theorem C5_makruh_iff_mubah_weekend (fromGr : FromGr) (sunset? : Option Int) (datetime : Int)
    (ctx : RuleContext) (a : FastingAnalysis) (hy hm hd : Nat)
    (hcustom : ctx.custom_rules = [])
    (hok : analyze fromGr sunset? datetime ctx = .ok a)
    (hconv : to_hijri fromGr (effectiveDate sunset? datetime).1 ctx.adjustment =
      .ok (hy, hm, hd))
    (hn1 : ¬ (hm = MONTH_SHAWWAL ∧ hd = 1))
    (hn2 : ¬ (hm = MONTH_DHUL_HIJJAH ∧ hd = 10))
    (hn3 : ¬ (hm = MONTH_DHUL_HIJJAH ∧ (11 ≤ hd ∧ hd ≤ 13))) :
    (a.primary_status = .Makruh ↔
      ((weekdayOfDays (effectiveDate sunset? datetime).1 = .fri ∨
        weekdayOfDays (effectiveDate sunset? datetime).1 = .sat) ∧
       statusAfterSunnah hm hd (weekdayOfDays (effectiveDate sunset? datetime).1) =
         .Mubah)) ∧
    (a.primary_status = .Makruh →
      FRIDAY_EXCLUSIVE ∈ a.reasons ∨ SATURDAY_EXCLUSIVE ∈ a.reasons) ∧
    ((hm = MONTH_DHUL_HIJJAH ∧ hd = DAY_ARAFAH) →
      a.primary_status = .SunnahMuakkadah) := by
  obtain ⟨tr, rfl⟩ := analyze_ok_eq fromGr sunset? datetime ctx a hy hm hd hok hconv
  simp only [applyRules, if_neg hn1, if_neg hn2, if_neg hn3, hcustom, customStage_nil]
  refine ⟨?_, ?_, ?_⟩
  · rw [makruhStage_fst, chain_fst_eq]
    constructor
    · intro h
      by_cases hc : statusAfterSunnah hm hd
          (weekdayOfDays (effectiveDate sunset? datetime).1) = .Mubah ∧
          (weekdayOfDays (effectiveDate sunset? datetime).1 = .fri ∨
           weekdayOfDays (effectiveDate sunset? datetime).1 = .sat)
      · exact ⟨hc.2, hc.1⟩
      · rw [if_neg hc] at h
        exact absurd h (statusAfterSunnah_ne_makruh _ _ _)
    · rintro ⟨hw, hmub⟩
      rw [if_pos ⟨hmub, hw⟩]
  · intro hM
    rw [makruhStage_fst, chain_fst_eq] at hM
    by_cases hc : statusAfterSunnah hm hd
        (weekdayOfDays (effectiveDate sunset? datetime).1) = .Mubah ∧
        (weekdayOfDays (effectiveDate sunset? datetime).1 = .fri ∨
         weekdayOfDays (effectiveDate sunset? datetime).1 = .sat)
    · have hmubS : (sunnahStage hm hd (weekdayOfDays (effectiveDate sunset? datetime).1)
          (sunnahMuakkadahStage hm hd
            (wajibStage hm (FastingStatus.Mubah, [], tr)))).1 = .Mubah := by
        rw [chain_fst_eq]; exact hc.1
      rcases hc.2 with hf | hs
      · rw [hf]
        rw [hf] at hmubS
        rw [makruhStage_fired_fri _ _ hmubS]
        left; simp
      · rw [hs]
        rw [hs] at hmubS
        rw [makruhStage_fired_sat _ _ hmubS]
        right; simp
    · rw [if_neg hc] at hM
      exact absurd hM (statusAfterSunnah_ne_makruh _ _ _)
  · rintro ⟨rfl, rfl⟩
    rw [makruhStage_fst, chain_fst_eq]
    generalize weekdayOfDays (effectiveDate sunset? datetime).1 = w
    cases w <;> decide

/-- Claim C6: the Daud iterator per-date step follows the specified state
machine (Haram + Skip flips `should_fast` without emitting; Haram + Postpone
leaves it unchanged without emitting; a non-Haram day emits exactly when
`should_fast` is true and always flips), and consequently, for a start date
whose status is Haram followed by four non-Haram days, over the 5-day window:
Skip emits neither day 0 nor day 1 but emits day 2; Postpone skips day 0,
emits day 1 and skips day 2. -/
theorem C6_daud_state_machine_scenarios (fromGr : FromGr) (ctx : RuleContext) (n : Nat) (cur : Int)
    (sf : Bool) (start : Int) :
    (((check fromGr cur ctx).primary_status.is_haram = true →
        (ctx.daud_strategy = .Skip →
          daudRun fromGr ctx (n+1) cur sf = daudRun fromGr ctx n (cur+1) (!sf)) ∧
        (ctx.daud_strategy = .Postpone →
          daudRun fromGr ctx (n+1) cur sf = daudRun fromGr ctx n (cur+1) sf)) ∧
     ((check fromGr cur ctx).primary_status.is_haram = false →
        (sf = true →
          daudRun fromGr ctx (n+1) cur sf =
            cur :: daudRun fromGr ctx n (cur+1) false) ∧
        (sf = false →
          daudRun fromGr ctx (n+1) cur sf = daudRun fromGr ctx n (cur+1) true))) ∧
    ((check fromGr start ctx).primary_status.is_haram = true →
     (check fromGr (start+1) ctx).primary_status.is_haram = false →
     (check fromGr (start+2) ctx).primary_status.is_haram = false →
     (check fromGr (start+3) ctx).primary_status.is_haram = false →
     (check fromGr (start+4) ctx).primary_status.is_haram = false →
     (ctx.daud_strategy = .Skip →
        start ∉ daudSchedule fromGr ctx start (start+4) ∧
        start + 1 ∉ daudSchedule fromGr ctx start (start+4) ∧
        start + 2 ∈ daudSchedule fromGr ctx start (start+4)) ∧
     (ctx.daud_strategy = .Postpone →
        start ∉ daudSchedule fromGr ctx start (start+4) ∧
        start + 1 ∈ daudSchedule fromGr ctx start (start+4) ∧
        start + 2 ∉ daudSchedule fromGr ctx start (start+4))) := by
  constructor
  · constructor
    · intro hh
      constructor
      · intro hs; simp [daudRun, hh, hs]
      · intro hs; simp [daudRun, hh, hs]
    · intro hh
      constructor
      · intro hsf; subst hsf; simp [daudRun, hh]
      · intro hsf; subst hsf; simp [daudRun, hh]
  · intro h0 h1 h2 h3 h4
    have hfuel : (start + 4 - start + 1).toNat = 5 := by omega
    have hsched : daudSchedule fromGr ctx start (start + 4) =
        daudRun fromGr ctx 5 start true := by
      rw [daudSchedule, hfuel]
    constructor
    · intro hs
      have hlist : daudRun fromGr ctx 5 start true = [start + 2, start + 4] := by
        simp [daudRun, h0, h1, h2, h3, h4, hs,
          show start + 1 + 1 = start + 2 by ring,
          show start + 2 + 1 = start + 3 by ring,
          show start + 3 + 1 = start + 4 by ring]
      rw [hsched, hlist]
      refine ⟨by simp, by simp, by simp⟩
    · intro hs
      have hlist : daudRun fromGr ctx 5 start true = [start + 1, start + 3] := by
        simp [daudRun, h0, h1, h2, h3, h4, hs,
          show start + 1 + 1 = start + 2 by ring,
          show start + 2 + 1 = start + 3 by ring,
          show start + 3 + 1 = start + 4 by ring]
      rw [hsched, hlist]
      refine ⟨by simp, by simp, by simp⟩

set_option maxHeartbeats 8000000 in
theorem C1_haram_absolute_priority_witness :
    analyze fgEid none (noonUtc zEid) RuleContext.default = .ok aEid ∧
    to_hijri fgEid (effectiveDate none (noonUtc zEid)).1
      RuleContext.default.adjustment = .ok (1445, 10, 1) ∧
    aEid.primary_status = .Haram ∧ aEid.reasons = [EID_AL_FITR] := by
  refine ⟨rfl, rfl, ?_⟩
  exact (C1_haram_absolute_priority fgEid none (noonUtc zEid) RuleContext.default
    aEid 1445 10 1 rfl rfl).1 ⟨rfl, rfl⟩

set_option maxHeartbeats 8000000 in
theorem C3_daud_never_emits_haram_witness :
    zEid ∈ daudSchedule fgPlain RuleContext.default zEid zEid ∧
    ¬ (check fgPlain zEid RuleContext.default).primary_status =
      FastingStatus.Haram := by
  refine ⟨by decide, ?_⟩
  exact C3_daud_never_emits_haram fgPlain RuleContext.default zEid zEid zEid (by decide)

set_option maxHeartbeats 8000000 in
theorem C4_ramadhan_exactly_wajib_witness :
    analyze fgRamadhan none (noonUtc zEid) RuleContext.default = .ok aRamadhan ∧
    aRamadhan.primary_status = .Wajib ∧ RAMADHAN ∈ aRamadhan.reasons := by
  refine ⟨rfl, ?_⟩
  exact C4_ramadhan_exactly_wajib fgRamadhan none (noonUtc zEid)
    RuleContext.default aRamadhan 1445 5 rfl rfl rfl

set_option maxHeartbeats 8000000 in
theorem C5_makruh_iff_mubah_weekend_witness :
    analyze fgArafah none (noonUtc zFri) RuleContext.default = .ok aArafah ∧
    aArafah.primary_status = .SunnahMuakkadah := by
  refine ⟨rfl, ?_⟩
  exact (C5_makruh_iff_mubah_weekend fgArafah none (noonUtc zFri)
    RuleContext.default aArafah 1445 12 9 rfl rfl rfl
    (by decide) (by decide) (by decide)).2.2 ⟨rfl, rfl⟩

set_option maxHeartbeats 8000000 in
theorem C6_daud_state_machine_scenarios_witness :
    zEid ∉ daudSchedule fgShawwal RuleContext.default zEid (zEid + 4) ∧
    zEid + 1 ∉ daudSchedule fgShawwal RuleContext.default zEid (zEid + 4) ∧
    zEid + 2 ∈ daudSchedule fgShawwal RuleContext.default zEid (zEid + 4) := by
  exact ((C6_daud_state_machine_scenarios fgShawwal RuleContext.default 0 zEid
    true zEid).2 (by decide) (by decide) (by decide) (by decide) (by decide)).1 rfl

theorem C7_bisection_structure_witness :
    (¬ ((fun t : Int => t) ((0:Int) + (43200 - 0) / 2) < 21600)) ∧
    bisectStep (fun t : Int => t) 21600 true (0, 43200) =
      (0, 0 + (43200 - 0) / 2) := by
  refine ⟨by decide, ?_⟩
  exact ((C7_bisection_structure (fun t => t) 21600).2.2.2 0 43200).2.1 (by decide)

set_option maxHeartbeats 8000000 in
theorem C9_cache_transparent_witness :
    (to_hijriCached fgEid fhId (some (zEid, 0, 1445, 10, 1)) zEid 0).1 =
      to_hijri fgEid zEid 0 := by
  refine C9_cache_transparent fgEid fhId _ zEid 0 ?_ ?_
  · rintro d adj y m day h
    have h2 : zEid = d ∧ (0:Int) = adj ∧ 1445 = y ∧ 10 = m ∧ 1 = day := by
      simpa using h
    obtain ⟨rfl, rfl, rfl, rfl, rfl⟩ := h2
    rfl
  · intro z y m d h
    have h2 : 1445 = y ∧ 10 = m ∧ 1 = d := by
      simpa [fgEid] using h
    obtain ⟨rfl, rfl, rfl⟩ := h2
    rfl

set_option maxHeartbeats 8000000 in
theorem C10_check_fabricates_mubah_witness :
    analyze fgEid none (noonUtc z1900) strictCtx = .error (dateOutOfRangeErr z1900) ∧
    check fgEid z1900 strictCtx = ⟨noonUtc z1900, .Mubah, 1400, 1, 1, [], []⟩ := by
  refine ⟨rfl, ?_⟩
  exact C10_check_fabricates_mubah fgEid z1900 strictCtx (dateOutOfRangeErr z1900) rfl

end Shaum
